import Mathlib

/-!
Shallow embedding of the WhatsApp conversational router in src/app.js
(menu with three options, two scripted flows, a customer stub flow,
in-memory per-user sessions) together with theorems checking the
natural-language specification against it.

Modelling conventions:
* The global mutable `sessions` Map is passed explicitly as a value of
  type `Sessions := String → Option Session`.
* The outbound WhatsApp senders (`sendText`, `sendMenu`, `sendYesNo`)
  perform HTTP in the source; here they are message intents of type
  `Out`, collected in emission order.
* JavaScript string helpers are embedded directly: `jsTrim` models
  `String.prototype.trim` (the whitespace class of JS regex `\s`),
  and `jsToLower` models `toLowerCase` for the ASCII tokens that
  appear in the program.
* A webhook body is reduced to the fields the handler reads:
  `message?.from` (with the falsy test `!from` folded into the `Option`,
  so an absent or empty sender is `none`), `message.text?.body`, and the
  button id when `message.type === 'interactive'` with a `button_reply`.
-/

namespace Wchat

/-- Character class of the JavaScript regex `\s` (whitespace), as used by
`String.prototype.trim` and by the email regex of the source. -/
def jsSpace (c : Char) : Bool :=
  [' ', '\t', '\n', '\r', '\x0b', '\x0c', '\u00A0', '\u1680',
   '\u2000', '\u2001', '\u2002', '\u2003', '\u2004', '\u2005', '\u2006',
   '\u2007', '\u2008', '\u2009', '\u200A', '\u2028', '\u2029', '\u202F',
   '\u205F', '\u3000', '\uFEFF'].contains c

/-- JavaScript `String.prototype.trim`: strip leading and trailing
whitespace. -/
def jsTrim (s : String) : String :=
  String.mk (((s.data.dropWhile jsSpace).reverse.dropWhile jsSpace).reverse)

/-- JavaScript `String.prototype.toLowerCase`, for the basic latin
letters that make up every keyword token of the program. -/
def jsToLower (s : String) : String :=
  String.mk (s.data.map Char.toLower)

/-- Character class `[^\s@]` of the email regex in src/app.js. -/
def emailChar (c : Char) : Bool :=
  !jsSpace c && c != '@'

/-- Embedding of the test of the email regex
`^[^\s@]+@[^\s@]+\.[^\s@]+$` from handleZimStep / handleAwanachiStep.
The leading `[^\s@]+` is anchored and the class cannot match `@`, so a
matching string is its longest `emailChar` prefix (nonempty), then `@`,
then a remainder that is all `emailChar` and splits (by backtracking)
around some `.` that is neither the first nor the last character of the
remainder. -/
def emailRegexAccepts (s : String) : Bool :=
  let localPart := s.data.takeWhile emailChar
  let rest := s.data.dropWhile emailChar
  match rest with
  | [] => false
  | r :: domain =>
      r == '@' && !localPart.isEmpty && domain.all emailChar
        && ((domain.drop 1).dropLast.contains '.')

/-- parseYesNo from src/app.js: falsy guard, trim + lowercase, then two
literal token lists. -/
def parseYesNo (text : Option String) : Option Bool :=
  match text with
  | none => none
  | some t0 =>
      if t0 = "" then none
      else
        let t := jsToLower (jsTrim t0)
        if (["yes", "y", "yeah", "yep", "1"] : List String).contains t then some true
        else if (["no", "n", "nope", "0", "2"] : List String).contains t then some false
        else none

/-- Collected fields of a session (the `data` object). Only these three
keys are ever written by the source, so the string map is embedded as a
record of optional fields. -/
structure SessionData where
  first_name : Option String := none
  last_name : Option String := none
  email : Option String := none
deriving DecidableEq

/-- Number of keys present in the collected-fields object. -/
def SessionData.keyCount (d : SessionData) : Nat :=
  (if d.first_name.isSome then 1 else 0)
    + (if d.last_name.isSome then 1 else 0)
    + (if d.email.isSome then 1 else 0)

/-- One per-user session, as stored in the `sessions` Map:
mode is one of the strings customer / zim / awanachi, step a string tag
or null, data the collected fields. -/
structure Session where
  mode : String
  step : Option String
  data : SessionData
deriving DecidableEq

/-- The in-memory `sessions` Map, keyed by the sender id. -/
def Sessions : Type := String → Option Session

/-- sessions.set of a whole session value (setSession always stores the
merged object under the key). -/
def sessionsSet (ss : Sessions) (k : String) (v : Session) : Sessions :=
  fun x => if x = k then some v else ss x

/-- clearSession: sessions.delete(from). -/
def sessionsDelete (ss : Sessions) (k : String) : Sessions :=
  fun x => if x = k then none else ss x

/-- Outbound message intents produced by the handler, in emission order:
sendText, sendMenu (the fixed three-button menu), sendYesNo. -/
inductive Out where
  | text (dest body : String)
  | menu (dest : String)
  | yesNo (dest idYes idNo promptText : String)
deriving DecidableEq

/-- startCustomerFlow from src/app.js. -/
def startCustomerFlow (ss : Sessions) (sender : String) : Sessions × List Out :=
  (sessionsSet ss sender { mode := "customer", step := none, data := {} },
   [Out.text sender "Thank you for considering our services. How can we serve you today?"])

/-- startZimFlow from src/app.js. -/
def startZimFlow (ss : Sessions) (sender : String) : Sessions × List Out :=
  (sessionsSet ss sender { mode := "zim", step := some "zim_first_name", data := {} },
   [Out.text sender "What is your first name?"])

/-- startAwanachiFlow from src/app.js. -/
def startAwanachiFlow (ss : Sessions) (sender : String) : Sessions × List Out :=
  (sessionsSet ss sender { mode := "awanachi", step := some "awanachi_active", data := {} },
   [Out.yesNo sender "awanachi_active_yes" "awanachi_active_no"
      "Do you have an active subscription? Yes/No"])

/-- handleZimStep from src/app.js: the switch over sess.step, with the
setSession merge semantics written out (mode is preserved, step and data
replaced). -/
def handleZimStep (ss : Sessions) (sender : String) (messageText : Option String) :
    Sessions × List Out :=
  match ss sender with
  | none => startZimFlow ss sender
  | some sess =>
      if sess.step = some "zim_first_name" then
        let first := jsTrim (messageText.getD "")
        if first = "" then (ss, [Out.text sender "Please provide your first name:"])
        else
          (sessionsSet ss sender
             { sess with step := some "zim_last_name",
                         data := { sess.data with first_name := some first } },
           [Out.text sender "What is your last name?"])
      else if sess.step = some "zim_last_name" then
        let last := jsTrim (messageText.getD "")
        if last = "" then (ss, [Out.text sender "Please provide your last name:"])
        else
          (sessionsSet ss sender
             { sess with step := some "zim_email",
                         data := { sess.data with last_name := some last } },
           [Out.text sender "What is your email address?"])
      else if sess.step = some "zim_email" then
        let email := jsTrim (messageText.getD "")
        if emailRegexAccepts email = false then
          (ss, [Out.text sender "Please provide a valid email address:"])
        else
          (sessionsSet ss sender
             { sess with step := some "zim_last_sitting",
                         data := { sess.data with email := some email } },
           [Out.yesNo sender "zim_exam_yes" "zim_exam_no"
              "Did you write exams in the last sitting? Yes/No"])
      else if sess.step = some "zim_last_sitting" then
        if parseYesNo messageText = some true then
          (sessionsDelete ss sender,
           [Out.text sender "Your issue has been escalated. Please give us some time.",
            Out.text sender "Type \"menu\" to start over or choose another option any time."])
        else if parseYesNo messageText = some false then
          (sessionsDelete ss sender,
           [Out.text sender "We are prioritising the students that wrote exams in the last sitting; however, please give us some time and you will receive an email with a link to activate your account when it is created.",
            Out.text sender "Type \"menu\" to start over or choose another option any time."])
        else
          (ss, [Out.yesNo sender "zim_exam_yes" "zim_exam_no"
                  "Did you write exams in the last sitting? Yes/No"])
      else
        startZimFlow ss sender

/-- handleAwanachiStep from src/app.js. -/
def handleAwanachiStep (ss : Sessions) (sender : String) (messageText : Option String) :
    Sessions × List Out :=
  match ss sender with
  | none => startAwanachiFlow ss sender
  | some sess =>
      if sess.step = some "awanachi_active" then
        if parseYesNo messageText = some true then
          (sessionsSet ss sender { sess with step := some "awanachi_email" },
           [Out.text sender "Great. What is your email address?"])
        else if parseYesNo messageText = some false then
          (sessionsSet ss sender { sess with step := some "awanachi_help" },
           [Out.text sender "How can we help you?"])
        else
          (ss, [Out.yesNo sender "awanachi_active_yes" "awanachi_active_no"
                  "Do you have an active subscription? Yes/No"])
      else if sess.step = some "awanachi_email" then
        let email := jsTrim (messageText.getD "")
        if emailRegexAccepts email = false then
          (ss, [Out.text sender "Please provide a valid email address:"])
        else
          (sessionsDelete ss sender,
           [Out.text sender "Thanks! We will review your subscription details and follow up shortly.",
            Out.text sender "Type \"menu\" to start over or choose another option any time."])
      else if sess.step = some "awanachi_help" then
        let helpText := jsTrim (messageText.getD "")
        if helpText = "" then (ss, [Out.text sender "Please tell us how we can help you:"])
        else
          (sessionsDelete ss sender,
           [Out.text sender "Thank you for the details. We will get back to you shortly.",
            Out.text sender "Type \"menu\" to start over or choose another option any time."])
      else
        startAwanachiFlow ss sender

/-- The fields the webhook handler reads from one inbound message:
sender (`message?.from`, with the falsy test treating an absent or empty
id as none), text body, and button_reply id for interactive messages. -/
structure Msg where
  sender : Option String
  text : Option String
  buttonId : Option String

/-- The if-chain over button ids in app.post, lines 271 to 308. Returns
none when the id matches no known button, in which case execution falls
through to the shortcut / dispatch section. -/
def buttonAction (ss : Sessions) (sender : String) (id : String) :
    Option (Sessions × List Out) :=
  if id = "opt_customer" then some (startCustomerFlow ss sender)
  else if id = "opt_zim" then some (startZimFlow ss sender)
  else if id = "opt_awanachi" then some (startAwanachiFlow ss sender)
  else if id = "zim_exam_yes" then
    some (sessionsDelete ss sender,
          [Out.text sender "Your issue has been escalated. Please give us some time.",
           Out.text sender "Type \"menu\" to start over or choose another option any time."])
  else if id = "zim_exam_no" then
    some (sessionsDelete ss sender,
          [Out.text sender "We are prioritising the students that wrote exams in the last sitting; however, please give us some time and you will receive an email with a link to activate your account when it is created.",
           Out.text sender "Type \"menu\" to start over or choose another option any time."])
  else if id = "awanachi_active_yes" then
    some (sessionsSet ss sender
            { mode := "awanachi", step := some "awanachi_email", data := {} },
          [Out.text sender "Great. What is your email address?"])
  else if id = "awanachi_active_no" then
    some (sessionsSet ss sender
            { mode := "awanachi", step := some "awanachi_help", data := {} },
          [Out.text sender "How can we help you?"])
  else none

/-- Lines 311 to 340 of app.post: numeric shortcuts 1/2/3 when no
session exists, otherwise dispatch on the session mode, with the menu as
fallback. -/
def dispatchOrMenu (ss : Sessions) (sender : String) (txt txtLower : Option String) :
    Sessions × List Out :=
  match ss sender with
  | none =>
      if txtLower = some "1" then startCustomerFlow ss sender
      else if txtLower = some "2" then startZimFlow ss sender
      else if txtLower = some "3" then startAwanachiFlow ss sender
      else (ss, [Out.menu sender])
  | some sess =>
      if sess.mode = "customer" then
        (ss, [Out.text sender "Thank you for considering our services. How can we serve you today?"])
      else if sess.mode = "zim" then handleZimStep ss sender txt
      else if sess.mode = "awanachi" then handleAwanachiStep ss sender txt
      else (ss, [Out.menu sender])

/-- The POST webhook handler of src/app.js, lines 241 to 344, as a pure
state transformer: drop events with no message or no sender, trim and
lowercase the text, honor the menu reset keyword first, then the button
id chain, then shortcuts / mode dispatch. -/
def handleEvent (ss : Sessions) (event : Option Msg) : Sessions × List Out :=
  match event with
  | none => (ss, [])
  | some m =>
      match m.sender with
      | none => (ss, [])
      | some sender =>
          let txt := m.text.map jsTrim
          let txtLower := txt.map jsToLower
          if txtLower = some "menu" then
            (sessionsDelete ss sender, [Out.menu sender])
          else
            match m.buttonId with
            | some id =>
                match buttonAction ss sender id with
                | some result => result
                | none => dispatchOrMenu ss sender txt txtLower
            | none => dispatchOrMenu ss sender txt txtLower

/-- A session shape reachable by the flow definitions: the mode is one of
the three flows and the step is one of that flow's own step tags. -/
def wellFormedSession (s : Session) : Prop :=
  (s.mode = "customer" ∧ s.step = none) ∨
  (s.mode = "zim" ∧
    (s.step = some "zim_first_name" ∨ s.step = some "zim_last_name" ∨
     s.step = some "zim_email" ∨ s.step = some "zim_last_sitting")) ∨
  (s.mode = "awanachi" ∧
    (s.step = some "awanachi_active" ∨ s.step = some "awanachi_email" ∨
     s.step = some "awanachi_help"))

/-- An empty session store. -/
def emptySessions : Sessions := fun _ => none

/-- A store holding one customer-mode session for user u. -/
def ssCustomer : Sessions :=
  fun x => if x = "u" then some { mode := "customer", step := none, data := {} } else none

/-- A store holding one zim session waiting for the first name. -/
def ssZimFirst : Sessions :=
  fun x => if x = "u" then some { mode := "zim", step := some "zim_first_name", data := {} } else none

/-- A store holding one awanachi session at the subscription question. -/
def ssAwanachiActive : Sessions :=
  fun x => if x = "u" then some { mode := "awanachi", step := some "awanachi_active", data := {} } else none

/-- A store holding one zim session waiting for the email. -/
def ssZimEmail : Sessions :=
  fun x => if x = "u" then some { mode := "zim", step := some "zim_email", data := {} } else none

/-- A store holding one zim session at the last-sitting branch question. -/
def ssZimSitting : Sessions :=
  fun x => if x = "u" then some { mode := "zim", step := some "zim_last_sitting", data := {} } else none

/-- A store holding one awanachi session at the how-can-we-help step. -/
def ssAwanachiHelp : Sessions :=
  fun x => if x = "u" then some { mode := "awanachi", step := some "awanachi_help", data := {} } else none

/-! ### Transition lemmas for the webhook handler and the two scripted flows -/

/-- A trimmed text that lowercases to the reset keyword short-circuits the
handler to session deletion plus the menu, whatever else the event holds. -/
theorem handleEvent_menu_reset (ss : Sessions) (u t : String) (b : Option String)
    (h : jsToLower (jsTrim t) = "menu") :
    handleEvent ss (some ⟨some u, some t, b⟩) = (sessionsDelete ss u, [Out.menu u]) := by
  simp [handleEvent, h]

/-- A free-text event whose text is not the reset keyword reaches the
shortcut / mode-dispatch section with the trimmed text. -/
theorem handleEvent_text_dispatch (ss : Sessions) (u t : String)
    (h : jsToLower (jsTrim t) ≠ "menu") :
    handleEvent ss (some ⟨some u, some t, none⟩)
      = dispatchOrMenu ss u (some (jsTrim t)) (some (jsToLower (jsTrim t))) := by
  simp [handleEvent, h]

/-- With a session in mode zim, the dispatch section delegates to
handleZimStep. -/
theorem dispatchOrMenu_zim (ss : Sessions) (u : String) (txt txtLower : Option String)
    (sess : Session) (hss : ss u = some sess) (hmode : sess.mode = "zim") :
    dispatchOrMenu ss u txt txtLower = handleZimStep ss u txt := by
  simp [dispatchOrMenu, hss, hmode]

/-- With a session in mode awanachi, the dispatch section delegates to
handleAwanachiStep. -/
theorem dispatchOrMenu_awanachi (ss : Sessions) (u : String) (txt txtLower : Option String)
    (sess : Session) (hss : ss u = some sess) (hmode : sess.mode = "awanachi") :
    dispatchOrMenu ss u txt txtLower = handleAwanachiStep ss u txt := by
  simp [dispatchOrMenu, hss, hmode]

/-- With a session in mode customer, the dispatch section emits the fixed
reply and leaves the store untouched. -/
theorem dispatchOrMenu_customer (ss : Sessions) (u : String) (txt txtLower : Option String)
    (sess : Session) (hss : ss u = some sess) (hmode : sess.mode = "customer") :
    dispatchOrMenu ss u txt txtLower
      = (ss, [Out.text u "Thank you for considering our services. How can we serve you today?"]) := by
  simp [dispatchOrMenu, hss, hmode]

/-- zim_first_name, empty answer: re-prompt, store untouched. -/
theorem handleZimStep_first_name_invalid (ss : Sessions) (u m : String) (d : SessionData)
    (t : Option String) (hss : ss u = some ⟨m, some "zim_first_name", d⟩)
    (h : jsTrim (t.getD "") = "") :
    handleZimStep ss u t = (ss, [Out.text u "Please provide your first name:"]) := by
  simp [handleZimStep, hss, h]

/-- zim_first_name, nonempty answer: record first_name, advance to
zim_last_name, prompt for the last name. -/
theorem handleZimStep_first_name_valid (ss : Sessions) (u m : String) (d : SessionData)
    (t : Option String) (hss : ss u = some ⟨m, some "zim_first_name", d⟩)
    (h : jsTrim (t.getD "") ≠ "") :
    handleZimStep ss u t
      = (sessionsSet ss u
           ⟨m, some "zim_last_name", { d with first_name := some (jsTrim (t.getD "")) }⟩,
         [Out.text u "What is your last name?"]) := by
  simp [handleZimStep, hss, h]

/-- zim_last_name, empty answer: re-prompt, store untouched. -/
theorem handleZimStep_last_name_invalid (ss : Sessions) (u m : String) (d : SessionData)
    (t : Option String) (hss : ss u = some ⟨m, some "zim_last_name", d⟩)
    (h : jsTrim (t.getD "") = "") :
    handleZimStep ss u t = (ss, [Out.text u "Please provide your last name:"]) := by
  simp [handleZimStep, hss, h]

/-- zim_last_name, nonempty answer: record last_name, advance to zim_email. -/
theorem handleZimStep_last_name_valid (ss : Sessions) (u m : String) (d : SessionData)
    (t : Option String) (hss : ss u = some ⟨m, some "zim_last_name", d⟩)
    (h : jsTrim (t.getD "") ≠ "") :
    handleZimStep ss u t
      = (sessionsSet ss u
           ⟨m, some "zim_email", { d with last_name := some (jsTrim (t.getD "")) }⟩,
         [Out.text u "What is your email address?"]) := by
  simp [handleZimStep, hss, h]

/-- zim_email, answer failing the email regex: re-prompt, store untouched. -/
theorem handleZimStep_email_invalid (ss : Sessions) (u m : String) (d : SessionData)
    (t : Option String) (hss : ss u = some ⟨m, some "zim_email", d⟩)
    (h : emailRegexAccepts (jsTrim (t.getD "")) = false) :
    handleZimStep ss u t = (ss, [Out.text u "Please provide a valid email address:"]) := by
  simp [handleZimStep, hss, h]

/-- zim_email, answer passing the email regex: record email, advance to the
yes/no branch question. -/
theorem handleZimStep_email_valid (ss : Sessions) (u m : String) (d : SessionData)
    (t : Option String) (hss : ss u = some ⟨m, some "zim_email", d⟩)
    (h : emailRegexAccepts (jsTrim (t.getD "")) = true) :
    handleZimStep ss u t
      = (sessionsSet ss u
           ⟨m, some "zim_last_sitting", { d with email := some (jsTrim (t.getD "")) }⟩,
         [Out.yesNo u "zim_exam_yes" "zim_exam_no"
            "Did you write exams in the last sitting? Yes/No"]) := by
  simp [handleZimStep, hss, h]

/-- zim_last_sitting, yes: terminal messages and session deletion. -/
theorem handleZimStep_last_sitting_yes (ss : Sessions) (u m : String) (d : SessionData)
    (t : Option String) (hss : ss u = some ⟨m, some "zim_last_sitting", d⟩)
    (h : parseYesNo t = some true) :
    handleZimStep ss u t
      = (sessionsDelete ss u,
         [Out.text u "Your issue has been escalated. Please give us some time.",
          Out.text u "Type \"menu\" to start over or choose another option any time."]) := by
  simp [handleZimStep, hss, h]

/-- zim_last_sitting, no: terminal messages and session deletion. -/
theorem handleZimStep_last_sitting_no (ss : Sessions) (u m : String) (d : SessionData)
    (t : Option String) (hss : ss u = some ⟨m, some "zim_last_sitting", d⟩)
    (h : parseYesNo t = some false) :
    handleZimStep ss u t
      = (sessionsDelete ss u,
         [Out.text u "We are prioritising the students that wrote exams in the last sitting; however, please give us some time and you will receive an email with a link to activate your account when it is created.",
          Out.text u "Type \"menu\" to start over or choose another option any time."]) := by
  simp [handleZimStep, hss, h]

/-- zim_last_sitting, unparseable answer: re-show the yes/no buttons, store
untouched. -/
theorem handleZimStep_last_sitting_reask (ss : Sessions) (u m : String) (d : SessionData)
    (t : Option String) (hss : ss u = some ⟨m, some "zim_last_sitting", d⟩)
    (h : parseYesNo t = none) :
    handleZimStep ss u t
      = (ss, [Out.yesNo u "zim_exam_yes" "zim_exam_no"
                "Did you write exams in the last sitting? Yes/No"]) := by
  simp [handleZimStep, hss, h]

/-- awanachi_active, yes: advance to awanachi_email, data untouched. -/
theorem handleAwanachiStep_active_yes (ss : Sessions) (u m : String) (d : SessionData)
    (t : Option String) (hss : ss u = some ⟨m, some "awanachi_active", d⟩)
    (h : parseYesNo t = some true) :
    handleAwanachiStep ss u t
      = (sessionsSet ss u ⟨m, some "awanachi_email", d⟩,
         [Out.text u "Great. What is your email address?"]) := by
  simp [handleAwanachiStep, hss, h]

/-- awanachi_active, no: advance to awanachi_help, data untouched. -/
theorem handleAwanachiStep_active_no (ss : Sessions) (u m : String) (d : SessionData)
    (t : Option String) (hss : ss u = some ⟨m, some "awanachi_active", d⟩)
    (h : parseYesNo t = some false) :
    handleAwanachiStep ss u t
      = (sessionsSet ss u ⟨m, some "awanachi_help", d⟩,
         [Out.text u "How can we help you?"]) := by
  simp [handleAwanachiStep, hss, h]

/-- awanachi_active, unparseable answer: re-show the yes/no buttons. -/
theorem handleAwanachiStep_active_reask (ss : Sessions) (u m : String) (d : SessionData)
    (t : Option String) (hss : ss u = some ⟨m, some "awanachi_active", d⟩)
    (h : parseYesNo t = none) :
    handleAwanachiStep ss u t
      = (ss, [Out.yesNo u "awanachi_active_yes" "awanachi_active_no"
                "Do you have an active subscription? Yes/No"]) := by
  simp [handleAwanachiStep, hss, h]

/-- awanachi_email, answer failing the email regex: re-prompt. -/
theorem handleAwanachiStep_email_invalid (ss : Sessions) (u m : String) (d : SessionData)
    (t : Option String) (hss : ss u = some ⟨m, some "awanachi_email", d⟩)
    (h : emailRegexAccepts (jsTrim (t.getD "")) = false) :
    handleAwanachiStep ss u t = (ss, [Out.text u "Please provide a valid email address:"]) := by
  simp [handleAwanachiStep, hss, h]

/-- awanachi_email, answer passing the email regex: terminal messages and
session deletion. -/
theorem handleAwanachiStep_email_valid (ss : Sessions) (u m : String) (d : SessionData)
    (t : Option String) (hss : ss u = some ⟨m, some "awanachi_email", d⟩)
    (h : emailRegexAccepts (jsTrim (t.getD "")) = true) :
    handleAwanachiStep ss u t
      = (sessionsDelete ss u,
         [Out.text u "Thanks! We will review your subscription details and follow up shortly.",
          Out.text u "Type \"menu\" to start over or choose another option any time."]) := by
  simp [handleAwanachiStep, hss, h]

/-- awanachi_help, empty answer: re-prompt. -/
theorem handleAwanachiStep_help_invalid (ss : Sessions) (u m : String) (d : SessionData)
    (t : Option String) (hss : ss u = some ⟨m, some "awanachi_help", d⟩)
    (h : jsTrim (t.getD "") = "") :
    handleAwanachiStep ss u t = (ss, [Out.text u "Please tell us how we can help you:"]) := by
  simp [handleAwanachiStep, hss, h]

/-- awanachi_help, nonempty answer: terminal messages and session deletion. -/
theorem handleAwanachiStep_help_valid (ss : Sessions) (u m : String) (d : SessionData)
    (t : Option String) (hss : ss u = some ⟨m, some "awanachi_help", d⟩)
    (h : jsTrim (t.getD "") ≠ "") :
    handleAwanachiStep ss u t
      = (sessionsDelete ss u,
         [Out.text u "Thank you for the details. We will get back to you shortly.",
          Out.text u "Type \"menu\" to start over or choose another option any time."]) := by
  simp [handleAwanachiStep, hss, h]

/-- Deleting a key makes the subsequent lookup absent. -/
theorem sessionsDelete_lookup (ss : Sessions) (u : String) :
    sessionsDelete ss u u = none := by
  simp [sessionsDelete]

/-- Setting a key makes the subsequent lookup return the stored session. -/
theorem sessionsSet_lookup (ss : Sessions) (u : String) (v : Session) :
    sessionsSet ss u v u = some v := by
  simp [sessionsSet]

/-! ### Claim theorems -/

/-- C4: for every user and every session state (any mode, any step), an
inbound text equal to the reset keyword menu after trimming and case folding
deletes that user's session (a subsequent lookup is absent) and yields
exactly one outbound menu message, before and instead of any other
interpretation (in particular regardless of any button payload carried by
the same event). -/
theorem C4_menu_reset_keyword (ss : Sessions) (u t : String) (b : Option String)
    (h : jsToLower (jsTrim t) = "menu") :
    handleEvent ss (some ⟨some u, some t, b⟩) = (sessionsDelete ss u, [Out.menu u])
      ∧ (handleEvent ss (some ⟨some u, some t, b⟩)).1 u = none := by
  refine ⟨handleEvent_menu_reset ss u t b h, ?_⟩
  rw [handleEvent_menu_reset ss u t b h]
  exact sessionsDelete_lookup ss u

/-- Witness for C4 at a concrete mid-flow session and the text "  MeNu ". -/
theorem C4_menu_reset_keyword_witness :
    jsToLower (jsTrim "  MeNu ") = "menu"
      ∧ handleEvent ssZimFirst (some ⟨some "u", some "  MeNu ", none⟩)
          = (sessionsDelete ssZimFirst "u", [Out.menu "u"])
      ∧ (handleEvent ssZimFirst (some ⟨some "u", some "  MeNu ", none⟩)).1 "u" = none :=
  ⟨by decide, (C4_menu_reset_keyword ssZimFirst "u" "  MeNu " none (by decide)).1,
   (C4_menu_reset_keyword ssZimFirst "u" "  MeNu " none (by decide)).2⟩

/-- C5: whenever a scripted flow reaches either terminal branch, the user's
session is deleted: a subsequent store lookup returns absent. The terminal
branches are the zim yes/no outcomes (typed or via the zim_exam buttons) and
the awanachi email / help completions. -/
theorem C5_terminal_branch_deletes_session :
    (∀ (ss : Sessions) (u m : String) (d : SessionData) (t : Option String),
        ss u = some ⟨m, some "zim_last_sitting", d⟩ → parseYesNo t ≠ none →
        (handleZimStep ss u t).1 u = none)
  ∧ (∀ (ss : Sessions) (u m : String) (d : SessionData) (t : Option String),
        ss u = some ⟨m, some "awanachi_email", d⟩ →
        emailRegexAccepts (jsTrim (t.getD "")) = true →
        (handleAwanachiStep ss u t).1 u = none)
  ∧ (∀ (ss : Sessions) (u m : String) (d : SessionData) (t : Option String),
        ss u = some ⟨m, some "awanachi_help", d⟩ → jsTrim (t.getD "") ≠ "" →
        (handleAwanachiStep ss u t).1 u = none)
  ∧ (∀ (ss : Sessions) (u : String),
        (handleEvent ss (some ⟨some u, none, some "zim_exam_yes"⟩)).1 u = none
      ∧ (handleEvent ss (some ⟨some u, none, some "zim_exam_no"⟩)).1 u = none) := by
  refine ⟨?_, ?_, ?_, ?_⟩
  · intro ss u m d t hss hyn
    cases hp : parseYesNo t with
    | none => exact absurd hp hyn
    | some yn =>
        cases yn with
        | true => rw [handleZimStep_last_sitting_yes ss u m d t hss hp]
                  exact sessionsDelete_lookup ss u
        | false => rw [handleZimStep_last_sitting_no ss u m d t hss hp]
                   exact sessionsDelete_lookup ss u
  · intro ss u m d t hss hok
    rw [handleAwanachiStep_email_valid ss u m d t hss hok]
    exact sessionsDelete_lookup ss u
  · intro ss u m d t hss hne
    rw [handleAwanachiStep_help_valid ss u m d t hss hne]
    exact sessionsDelete_lookup ss u
  · intro ss u
    constructor <;> simp [handleEvent, buttonAction, sessionsDelete]

/-- Witness for C5 at concrete terminal transitions. -/
theorem C5_terminal_branch_deletes_session_witness :
    (ssZimSitting "u" = some ⟨"zim", some "zim_last_sitting", {}⟩
      ∧ parseYesNo (some "yes") ≠ none
      ∧ (handleZimStep ssZimSitting "u" (some "yes")).1 "u" = none)
  ∧ (ssAwanachiHelp "u" = some ⟨"awanachi", some "awanachi_help", {}⟩
      ∧ jsTrim ((some "need help").getD "") ≠ ""
      ∧ (handleAwanachiStep ssAwanachiHelp "u" (some "need help")).1 "u" = none) :=
  ⟨⟨by decide, by decide,
    C5_terminal_branch_deletes_session.1 ssZimSitting "u" "zim" {} (some "yes")
      (by decide) (by decide)⟩,
   ⟨by decide, by decide,
    C5_terminal_branch_deletes_session.2.2.1 ssAwanachiHelp "u" "awanachi" {} (some "need help")
      (by decide) (by decide)⟩⟩

/-- C6: for every scripted-flow state, an answer rejected by that state's
validator leaves the whole session store unchanged (so step and
collectedFields in particular) and emits exactly one re-prompt for the same
field. -/
theorem C6_invalid_answer_is_a_no_op :
    (∀ (ss : Sessions) (u m : String) (d : SessionData) (t : Option String),
        ss u = some ⟨m, some "zim_first_name", d⟩ → jsTrim (t.getD "") = "" →
        handleZimStep ss u t = (ss, [Out.text u "Please provide your first name:"]))
  ∧ (∀ (ss : Sessions) (u m : String) (d : SessionData) (t : Option String),
        ss u = some ⟨m, some "zim_last_name", d⟩ → jsTrim (t.getD "") = "" →
        handleZimStep ss u t = (ss, [Out.text u "Please provide your last name:"]))
  ∧ (∀ (ss : Sessions) (u m : String) (d : SessionData) (t : Option String),
        ss u = some ⟨m, some "zim_email", d⟩ →
        emailRegexAccepts (jsTrim (t.getD "")) = false →
        handleZimStep ss u t = (ss, [Out.text u "Please provide a valid email address:"]))
  ∧ (∀ (ss : Sessions) (u m : String) (d : SessionData) (t : Option String),
        ss u = some ⟨m, some "zim_last_sitting", d⟩ → parseYesNo t = none →
        handleZimStep ss u t
          = (ss, [Out.yesNo u "zim_exam_yes" "zim_exam_no"
                    "Did you write exams in the last sitting? Yes/No"]))
  ∧ (∀ (ss : Sessions) (u m : String) (d : SessionData) (t : Option String),
        ss u = some ⟨m, some "awanachi_active", d⟩ → parseYesNo t = none →
        handleAwanachiStep ss u t
          = (ss, [Out.yesNo u "awanachi_active_yes" "awanachi_active_no"
                    "Do you have an active subscription? Yes/No"]))
  ∧ (∀ (ss : Sessions) (u m : String) (d : SessionData) (t : Option String),
        ss u = some ⟨m, some "awanachi_email", d⟩ →
        emailRegexAccepts (jsTrim (t.getD "")) = false →
        handleAwanachiStep ss u t = (ss, [Out.text u "Please provide a valid email address:"]))
  ∧ (∀ (ss : Sessions) (u m : String) (d : SessionData) (t : Option String),
        ss u = some ⟨m, some "awanachi_help", d⟩ → jsTrim (t.getD "") = "" →
        handleAwanachiStep ss u t = (ss, [Out.text u "Please tell us how we can help you:"])) :=
  ⟨handleZimStep_first_name_invalid, handleZimStep_last_name_invalid,
   handleZimStep_email_invalid, handleZimStep_last_sitting_reask,
   handleAwanachiStep_active_reask, handleAwanachiStep_email_invalid,
   handleAwanachiStep_help_invalid⟩

/-- Witness for C6: an empty first name and a malformed email on concrete
stores are rejected without touching the store. -/
theorem C6_invalid_answer_is_a_no_op_witness :
    (ssZimFirst "u" = some ⟨"zim", some "zim_first_name", {}⟩
      ∧ jsTrim ((some "   ").getD "") = ""
      ∧ handleZimStep ssZimFirst "u" (some "   ")
          = (ssZimFirst, [Out.text "u" "Please provide your first name:"]))
  ∧ (ssZimEmail "u" = some ⟨"zim", some "zim_email", {}⟩
      ∧ emailRegexAccepts (jsTrim ((some "not an email").getD "")) = false
      ∧ handleZimStep ssZimEmail "u" (some "not an email")
          = (ssZimEmail, [Out.text "u" "Please provide a valid email address:"])) :=
  ⟨⟨by decide, by decide,
    C6_invalid_answer_is_a_no_op.1 ssZimFirst "u" "zim" {} (some "   ") (by decide) (by decide)⟩,
   ⟨by decide, by decide,
    C6_invalid_answer_is_a_no_op.2.2.1 ssZimEmail "u" "zim" {} (some "not an email")
      (by decide) (by decide)⟩⟩

/-- C10: the free-text tokens yes / y / yeah / yep / 1 normalize (after
trimming and case folding) to the Yes branch and no / n / nope / 0 / 2 to
the No branch; and while a yes/no branch session exists, the texts 1 and 2
select a branch at that step instead of acting as the pre-session menu
shortcuts. -/
theorem C10_yes_no_token_normalization :
    (∀ s : String,
        (["yes", "y", "yeah", "yep", "1"] : List String).contains (jsToLower (jsTrim s)) = true →
        parseYesNo (some s) = some true)
  ∧ (∀ s : String,
        (["no", "n", "nope", "0", "2"] : List String).contains (jsToLower (jsTrim s)) = true →
        parseYesNo (some s) = some false)
  ∧ (∀ (ss : Sessions) (u : String) (d : SessionData),
        ss u = some ⟨"zim", some "zim_last_sitting", d⟩ →
        handleEvent ss (some ⟨some u, some "1", none⟩)
          = (sessionsDelete ss u,
             [Out.text u "Your issue has been escalated. Please give us some time.",
              Out.text u "Type \"menu\" to start over or choose another option any time."])
      ∧ handleEvent ss (some ⟨some u, some "2", none⟩)
          = (sessionsDelete ss u,
             [Out.text u "We are prioritising the students that wrote exams in the last sitting; however, please give us some time and you will receive an email with a link to activate your account when it is created.",
              Out.text u "Type \"menu\" to start over or choose another option any time."]))
  ∧ (∀ (ss : Sessions) (u : String) (d : SessionData),
        ss u = some ⟨"awanachi", some "awanachi_active", d⟩ →
        handleEvent ss (some ⟨some u, some "1", none⟩)
          = (sessionsSet ss u ⟨"awanachi", some "awanachi_email", d⟩,
             [Out.text u "Great. What is your email address?"])
      ∧ handleEvent ss (some ⟨some u, some "2", none⟩)
          = (sessionsSet ss u ⟨"awanachi", some "awanachi_help", d⟩,
             [Out.text u "How can we help you?"])) := by
  refine ⟨?_, ?_, ?_, ?_⟩
  · intro s h
    have hm := List.elem_iff.1 h
    by_cases hs : s = ""
    · subst hs; exact absurd h (by decide)
    · simp only [List.mem_cons, List.not_mem_nil, or_false] at hm
      rcases hm with e | e | e | e | e <;> simp [parseYesNo, hs, e]
  · intro s h
    have hm := List.elem_iff.1 h
    by_cases hs : s = ""
    · subst hs; exact absurd h (by decide)
    · simp only [List.mem_cons, List.not_mem_nil, or_false] at hm
      rcases hm with e | e | e | e | e <;> simp [parseYesNo, hs, e]
  · intro ss u d hss
    constructor
    · rw [handleEvent_text_dispatch ss u "1" (by decide),
          dispatchOrMenu_zim ss u _ _ _ hss rfl,
          handleZimStep_last_sitting_yes ss u "zim" d (some (jsTrim "1")) hss (by decide)]
    · rw [handleEvent_text_dispatch ss u "2" (by decide),
          dispatchOrMenu_zim ss u _ _ _ hss rfl,
          handleZimStep_last_sitting_no ss u "zim" d (some (jsTrim "2")) hss (by decide)]
  · intro ss u d hss
    constructor
    · rw [handleEvent_text_dispatch ss u "1" (by decide),
          dispatchOrMenu_awanachi ss u _ _ _ hss rfl,
          handleAwanachiStep_active_yes ss u "awanachi" d (some (jsTrim "1")) hss (by decide)]
    · rw [handleEvent_text_dispatch ss u "2" (by decide),
          dispatchOrMenu_awanachi ss u _ _ _ hss rfl,
          handleAwanachiStep_active_no ss u "awanachi" d (some (jsTrim "2")) hss (by decide)]

/-- Witness for C10: the token " YeP " normalizes to yes, " NOPE " to no,
and the text 2 takes the No branch at the awanachi subscription question. -/
theorem C10_yes_no_token_normalization_witness :
    ((["yes", "y", "yeah", "yep", "1"] : List String).contains (jsToLower (jsTrim " YeP ")) = true
      ∧ parseYesNo (some " YeP ") = some true)
  ∧ ((["no", "n", "nope", "0", "2"] : List String).contains (jsToLower (jsTrim " NOPE ")) = true
      ∧ parseYesNo (some " NOPE ") = some false)
  ∧ handleEvent ssAwanachiActive (some ⟨some "u", some "2", none⟩)
      = (sessionsSet ssAwanachiActive "u" ⟨"awanachi", some "awanachi_help", {}⟩,
         [Out.text "u" "How can we help you?"]) :=
  ⟨⟨by decide, C10_yes_no_token_normalization.1 " YeP " (by decide)⟩,
   ⟨by decide, C10_yes_no_token_normalization.2.1 " NOPE " (by decide)⟩,
   (C10_yes_no_token_normalization.2.2.2 ssAwanachiActive "u" {} (by decide)).2⟩

/-- C2 counterexample: at the awanachi_active branch state the answer yes is
accepted by the validator (it advances the step to awanachi_email), yet no
new key is written into collectedFields: the field object stays empty, with
zero keys before and after, refuting writes exactly one new key for every
scripted-flow state. -/
theorem C2_counterexample :
    (ssAwanachiActive "u").map (fun s => s.data.keyCount) = some 0
  ∧ (handleAwanachiStep ssAwanachiActive "u" (some "yes")).1 "u"
      = some ⟨"awanachi", some "awanachi_email", {}⟩
  ∧ ((handleAwanachiStep ssAwanachiActive "u" (some "yes")).1 "u").map
      (fun s => s.data.keyCount) = some 0 := by
  refine ⟨by decide, ?_, ?_⟩ <;> decide

/-- C2 (amended): for the three field-collecting states of the zim flow, a
valid answer advances step to exactly the next defined state and, when the
field is not yet present, writes exactly one new key into collectedFields;
the awanachi branch state advances on an accepted yes answer without
writing any key. -/
theorem C2_valid_answer_advances :
    (∀ (ss : Sessions) (u m : String) (d : SessionData) (t : Option String),
        ss u = some ⟨m, some "zim_first_name", d⟩ → jsTrim (t.getD "") ≠ "" →
        d.first_name = none →
        handleZimStep ss u t
          = (sessionsSet ss u
               ⟨m, some "zim_last_name", { d with first_name := some (jsTrim (t.getD "")) }⟩,
             [Out.text u "What is your last name?"])
        ∧ SessionData.keyCount { d with first_name := some (jsTrim (t.getD "")) }
            = d.keyCount + 1)
  ∧ (∀ (ss : Sessions) (u m : String) (d : SessionData) (t : Option String),
        ss u = some ⟨m, some "zim_last_name", d⟩ → jsTrim (t.getD "") ≠ "" →
        d.last_name = none →
        handleZimStep ss u t
          = (sessionsSet ss u
               ⟨m, some "zim_email", { d with last_name := some (jsTrim (t.getD "")) }⟩,
             [Out.text u "What is your email address?"])
        ∧ SessionData.keyCount { d with last_name := some (jsTrim (t.getD "")) }
            = d.keyCount + 1)
  ∧ (∀ (ss : Sessions) (u m : String) (d : SessionData) (t : Option String),
        ss u = some ⟨m, some "zim_email", d⟩ →
        emailRegexAccepts (jsTrim (t.getD "")) = true →
        d.email = none →
        handleZimStep ss u t
          = (sessionsSet ss u
               ⟨m, some "zim_last_sitting", { d with email := some (jsTrim (t.getD "")) }⟩,
             [Out.yesNo u "zim_exam_yes" "zim_exam_no"
                "Did you write exams in the last sitting? Yes/No"])
        ∧ SessionData.keyCount { d with email := some (jsTrim (t.getD "")) }
            = d.keyCount + 1)
  ∧ (∀ (ss : Sessions) (u m : String) (d : SessionData) (t : Option String),
        ss u = some ⟨m, some "awanachi_active", d⟩ → parseYesNo t = some true →
        handleAwanachiStep ss u t
          = (sessionsSet ss u ⟨m, some "awanachi_email", d⟩,
             [Out.text u "Great. What is your email address?"])) := by
  refine ⟨?_, ?_, ?_, handleAwanachiStep_active_yes⟩
  · intro ss u m d t hss ht hd
    refine ⟨handleZimStep_first_name_valid ss u m d t hss ht, ?_⟩
    simp [SessionData.keyCount, hd]
    omega
  · intro ss u m d t hss ht hd
    refine ⟨handleZimStep_last_name_valid ss u m d t hss ht, ?_⟩
    simp [SessionData.keyCount, hd]
    omega
  · intro ss u m d t hss ht hd
    refine ⟨handleZimStep_email_valid ss u m d t hss ht, ?_⟩
    simp [SessionData.keyCount, hd]

/-- Witness for C2 (amended): a concrete first name advances the zim flow
and adds exactly one key. -/
theorem C2_valid_answer_advances_witness :
    ssZimFirst "u" = some ⟨"zim", some "zim_first_name", {}⟩
  ∧ jsTrim ((some "Ana").getD "") ≠ ""
  ∧ (({} : SessionData).first_name = none)
  ∧ (handleZimStep ssZimFirst "u" (some "Ana")
      = (sessionsSet ssZimFirst "u"
           ⟨"zim", some "zim_last_name",
             { ({} : SessionData) with first_name := some (jsTrim ((some "Ana").getD "")) }⟩,
         [Out.text "u" "What is your last name?"])
     ∧ SessionData.keyCount
         { ({} : SessionData) with first_name := some (jsTrim ((some "Ana").getD "")) }
         = SessionData.keyCount {} + 1) :=
  ⟨by decide, by decide, by decide,
   C2_valid_answer_advances.1 ssZimFirst "u" "zim" {} (some "Ana")
     (by decide) (by decide) (by decide)⟩

/-- C1 counterexample: the claim requires that in customer mode the sole
outbound reply be the text returned by the Generative Backend for the
forwarded utterance; as an interface contract this must hold for every
backend function. It fails already for the constant backend below, because
the source's customer branch replies with a fixed string and calls no
backend at all (the source header reads: WhatsApp bot with 3-option menu,
no ChatGPT). -/
theorem C1_counterexample :
    ¬ ∀ (generate : String → String → String) (persona : String),
        (handleEvent ssCustomer (some ⟨some "u", some "hello", none⟩)).2
          = [Out.text "u" (generate persona "hello")] := by
  intro h
  exact absurd (h (fun _ _ => "generated reply") "persona") (by decide)

/-- C1 (amended): for every user whose session has mode customer, every
subsequent free-text signal (other than the reset keyword) yields exactly
one outbound message, the fixed text reply of the customer stub; the session
store is left unchanged and no Generative Backend is involved. -/
theorem C1_customer_mode_fixed_reply (ss : Sessions) (u t : String) (sess : Session)
    (hss : ss u = some sess) (hmode : sess.mode = "customer")
    (hmenu : jsToLower (jsTrim t) ≠ "menu") :
    handleEvent ss (some ⟨some u, some t, none⟩)
      = (ss, [Out.text u "Thank you for considering our services. How can we serve you today?"]) := by
  rw [handleEvent_text_dispatch ss u t hmenu]
  exact dispatchOrMenu_customer ss u _ _ sess hss hmode

/-- Witness for C1 (amended) at a concrete customer session and the text
hello. -/
theorem C1_customer_mode_fixed_reply_witness :
    ssCustomer "u" = some ⟨"customer", none, {}⟩
  ∧ jsToLower (jsTrim "hello") ≠ "menu"
  ∧ handleEvent ssCustomer (some ⟨some "u", some "hello", none⟩)
      = (ssCustomer,
         [Out.text "u" "Thank you for considering our services. How can we serve you today?"]) :=
  ⟨by decide, by decide,
   C1_customer_mode_fixed_reply ssCustomer "u" "hello" ⟨"customer", none, {}⟩
     (by decide) rfl (by decide)⟩

/-- C3 counterexample: with a session in mode zim at its first step, the
button id awanachi_active_yes (which belongs to the awanachi flow) is
interpreted globally: the handler overwrites the session with an awanachi
session instead of delegating the signal to the zim transition function. -/
theorem C3_counterexample :
    ssZimFirst "u" = some ⟨"zim", some "zim_first_name", {}⟩
  ∧ (handleEvent ssZimFirst (some ⟨some "u", none, some "awanachi_active_yes"⟩)).1 "u"
      = some ⟨"awanachi", some "awanachi_email", {}⟩
  ∧ (handleEvent ssZimFirst (some ⟨some "u", none, some "awanachi_active_yes"⟩)).2
      ≠ (handleZimStep ssZimFirst "u" none).2 := by
  refine ⟨by decide, by decide, by decide⟩

/-- C3 (amended): while a session exists with mode zim or awanachi, every
free-text signal other than the reset keyword is delegated to that mode's
transition function with the trimmed text (so a step tag of one mode is
never interpreted under another for text input); button identifiers,
however, are matched globally before mode dispatch. -/
theorem C3_text_signals_are_delegated :
    (∀ (ss : Sessions) (u t : String) (sess : Session),
        ss u = some sess → sess.mode = "zim" → jsToLower (jsTrim t) ≠ "menu" →
        handleEvent ss (some ⟨some u, some t, none⟩) = handleZimStep ss u (some (jsTrim t)))
  ∧ (∀ (ss : Sessions) (u t : String) (sess : Session),
        ss u = some sess → sess.mode = "awanachi" → jsToLower (jsTrim t) ≠ "menu" →
        handleEvent ss (some ⟨some u, some t, none⟩) = handleAwanachiStep ss u (some (jsTrim t))) := by
  constructor
  · intro ss u t sess hss hmode hmenu
    rw [handleEvent_text_dispatch ss u t hmenu]
    exact dispatchOrMenu_zim ss u _ _ sess hss hmode
  · intro ss u t sess hss hmode hmenu
    rw [handleEvent_text_dispatch ss u t hmenu]
    exact dispatchOrMenu_awanachi ss u _ _ sess hss hmode

/-- Witness for C3 (amended): a concrete text at the zim first step is
handled by the zim transition function. -/
theorem C3_text_signals_are_delegated_witness :
    ssZimFirst "u" = some ⟨"zim", some "zim_first_name", {}⟩
  ∧ jsToLower (jsTrim "Ana") ≠ "menu"
  ∧ handleEvent ssZimFirst (some ⟨some "u", some "Ana", none⟩)
      = handleZimStep ssZimFirst "u" (some (jsTrim "Ana")) :=
  ⟨by decide, by decide,
   C3_text_signals_are_delegated.1 ssZimFirst "u" "Ana" ⟨"zim", some "zim_first_name", {}⟩
     (by decide) rfl (by decide)⟩

/-- C7 counterexample: an event that carries a sender but no message body of
any kind (no text, no button) is not silently dropped; with no session the
handler replies with the menu, refuting the claim that every such event
yields no outbound message. -/
theorem C7_counterexample :
    (handleEvent emptySessions (some ⟨some "u", none, none⟩)).2 = [Out.menu "u"]
  ∧ (handleEvent emptySessions (some ⟨some "u", none, none⟩)).2 ≠ ([] : List Out) := by
  refine ⟨by decide, by decide⟩

/-- C7 (amended): an event with no message at all, or whose message has no
sender, is silently dropped with no outbound message; an event with a
sender but no text and no button body is instead treated as unrecognized
input: with no session it yields exactly one outbound menu message. -/
theorem C7_no_sender_dropped_no_body_menued :
    (∀ ss : Sessions, handleEvent ss none = (ss, []))
  ∧ (∀ (ss : Sessions) (m : Msg), m.sender = none → handleEvent ss (some m) = (ss, []))
  ∧ (∀ (ss : Sessions) (u : String), ss u = none →
        handleEvent ss (some ⟨some u, none, none⟩) = (ss, [Out.menu u])) := by
  refine ⟨fun ss => rfl, ?_, ?_⟩
  · intro ss m h
    obtain ⟨snd, txt, btn⟩ := m
    cases h
    rfl
  · intro ss u h
    simp [handleEvent, dispatchOrMenu, h]

/-- Witness for C7 (amended): a sender-less message is dropped, and a
bodyless message from a new user draws the menu. -/
theorem C7_no_sender_dropped_no_body_menued_witness :
    ((⟨none, some "hi", none⟩ : Msg).sender = none
      ∧ handleEvent emptySessions (some ⟨none, some "hi", none⟩) = (emptySessions, []))
  ∧ (emptySessions "u" = none
      ∧ handleEvent emptySessions (some ⟨some "u", none, none⟩)
          = (emptySessions, [Out.menu "u"])) :=
  ⟨⟨rfl, C7_no_sender_dropped_no_body_menued.2.1 emptySessions ⟨none, some "hi", none⟩ rfl⟩,
   ⟨rfl, C7_no_sender_dropped_no_body_menued.2.2 emptySessions "u" rfl⟩⟩

/-- C8: with no existing session, the free-text numeric shortcut 2 produces
exactly the same result (store and outbound messages) as pressing the
second menu button (id opt_zim); and with an existing well-formed session
the shortcut is not honored: the handling of the text 2 never yields the
zim flow's freshly started session nor its opening prompt. -/
theorem C8_numeric_shortcut_two :
    (∀ (ss : Sessions) (u : String), ss u = none →
        handleEvent ss (some ⟨some u, some "2", none⟩)
          = handleEvent ss (some ⟨some u, none, some "opt_zim"⟩))
  ∧ (∀ (ss : Sessions) (u : String) (sess : Session), ss u = some sess →
        wellFormedSession sess →
        (handleEvent ss (some ⟨some u, some "2", none⟩)).1 u
            ≠ some ⟨"zim", some "zim_first_name", {}⟩
      ∧ (handleEvent ss (some ⟨some u, some "2", none⟩)).2 ≠ (startZimFlow ss u).2) := by
  have hne : jsToLower (jsTrim "2") ≠ "menu" := by decide
  have e2l : jsToLower (jsTrim "2") = "2" := by decide
  have e2 : jsTrim "2" = "2" := by decide
  constructor
  · intro ss u h
    rw [handleEvent_text_dispatch ss u "2" hne, e2l, e2]
    simp [handleEvent, dispatchOrMenu, buttonAction, h]
  · intro ss u sess hss hwf
    rcases hwf with ⟨hm, hs⟩ | ⟨hm, hs | hs | hs | hs⟩ | ⟨hm, hs | hs | hs⟩
    · rw [handleEvent_text_dispatch ss u "2" hne,
          dispatchOrMenu_customer ss u _ _ sess hss hm]
      constructor
      · simp only [hss, ne_eq, Option.some.injEq]
        intro heq
        rw [heq] at hm
        exact absurd hm (by decide)
      · simp [startZimFlow]
    · have hss' : ss u = some ⟨sess.mode, some "zim_first_name", sess.data⟩ := by
        rw [← hs]; exact hss
      rw [handleEvent_text_dispatch ss u "2" hne,
          dispatchOrMenu_zim ss u _ _ sess hss hm,
          handleZimStep_first_name_valid ss u sess.mode sess.data (some (jsTrim "2")) hss'
            (by decide)]
      constructor
      · simp [sessionsSet]
      · simp [startZimFlow]
    · have hss' : ss u = some ⟨sess.mode, some "zim_last_name", sess.data⟩ := by
        rw [← hs]; exact hss
      rw [handleEvent_text_dispatch ss u "2" hne,
          dispatchOrMenu_zim ss u _ _ sess hss hm,
          handleZimStep_last_name_valid ss u sess.mode sess.data (some (jsTrim "2")) hss'
            (by decide)]
      constructor
      · simp [sessionsSet]
      · simp [startZimFlow]
    · have hss' : ss u = some ⟨sess.mode, some "zim_email", sess.data⟩ := by
        rw [← hs]; exact hss
      rw [handleEvent_text_dispatch ss u "2" hne,
          dispatchOrMenu_zim ss u _ _ sess hss hm,
          handleZimStep_email_invalid ss u sess.mode sess.data (some (jsTrim "2")) hss'
            (by decide)]
      constructor
      · simp [hss']
      · simp [startZimFlow]
    · have hss' : ss u = some ⟨sess.mode, some "zim_last_sitting", sess.data⟩ := by
        rw [← hs]; exact hss
      rw [handleEvent_text_dispatch ss u "2" hne,
          dispatchOrMenu_zim ss u _ _ sess hss hm,
          handleZimStep_last_sitting_no ss u sess.mode sess.data (some (jsTrim "2")) hss'
            (by decide)]
      constructor
      · simp [sessionsDelete]
      · simp [startZimFlow]
    · have hss' : ss u = some ⟨sess.mode, some "awanachi_active", sess.data⟩ := by
        rw [← hs]; exact hss
      rw [handleEvent_text_dispatch ss u "2" hne,
          dispatchOrMenu_awanachi ss u _ _ sess hss hm,
          handleAwanachiStep_active_no ss u sess.mode sess.data (some (jsTrim "2")) hss'
            (by decide)]
      constructor
      · simp [sessionsSet]
      · simp [startZimFlow]
    · have hss' : ss u = some ⟨sess.mode, some "awanachi_email", sess.data⟩ := by
        rw [← hs]; exact hss
      rw [handleEvent_text_dispatch ss u "2" hne,
          dispatchOrMenu_awanachi ss u _ _ sess hss hm,
          handleAwanachiStep_email_invalid ss u sess.mode sess.data (some (jsTrim "2")) hss'
            (by decide)]
      constructor
      · simp [hss']
      · simp [startZimFlow]
    · have hss' : ss u = some ⟨sess.mode, some "awanachi_help", sess.data⟩ := by
        rw [← hs]; exact hss
      rw [handleEvent_text_dispatch ss u "2" hne,
          dispatchOrMenu_awanachi ss u _ _ sess hss hm,
          handleAwanachiStep_help_valid ss u sess.mode sess.data (some (jsTrim "2")) hss'
            (by decide)]
      constructor
      · simp [sessionsDelete]
      · simp [startZimFlow]

/-- Witness for C8: the shortcut 2 from an unseen user coincides with the
opt_zim button, and a customer session blocks the shortcut. -/
theorem C8_numeric_shortcut_two_witness :
    (emptySessions "u" = none
      ∧ handleEvent emptySessions (some ⟨some "u", some "2", none⟩)
          = handleEvent emptySessions (some ⟨some "u", none, some "opt_zim"⟩))
  ∧ (ssCustomer "u" = some ⟨"customer", none, {}⟩
      ∧ wellFormedSession ⟨"customer", none, {}⟩
      ∧ (handleEvent ssCustomer (some ⟨some "u", some "2", none⟩)).1 "u"
          ≠ some ⟨"zim", some "zim_first_name", {}⟩) :=
  ⟨⟨rfl, C8_numeric_shortcut_two.1 emptySessions "u" rfl⟩,
   ⟨by decide, Or.inl ⟨rfl, rfl⟩,
    (C8_numeric_shortcut_two.2 ssCustomer "u" ⟨"customer", none, {}⟩
       (by decide) (Or.inl ⟨rfl, rfl⟩)).1⟩⟩

/-- The shape named by the original claim for the email field: the string
contains an at-sign with a dot somewhere after it. -/
def hasAtThenDot (s : String) : Bool :=
  ((s.data.dropWhile (fun c => c != '@')).drop 1).contains '.'

/-- The acceptance set of the email regex, written out as the words of the
amended claim: a decomposition into a nonempty run, an at-sign, a nonempty
run, a dot and a nonempty run, every run character being neither
whitespace nor an at-sign (further dots may occur inside the runs). -/
def emailShapeSpec (s : String) : Prop :=
  ∃ a b c : List Char, a ≠ [] ∧ b ≠ [] ∧ c ≠ [] ∧
    (a ++ b ++ c).all emailChar = true ∧
    s.data = a ++ '@' :: (b ++ '.' :: c)

/-- takeWhile over a list that starts with a satisfying run followed by a
failing element returns exactly that run. -/
theorem takeWhile_all_append {α : Type} (p : α → Bool) (a : List α) (t : List α) (x : α)
    (ha : ∀ y ∈ a, p y = true) (hx : p x = false) :
    (a ++ x :: t).takeWhile p = a := by
  induction a with
  | nil =>
      rw [List.nil_append, List.takeWhile_cons_of_neg (by simp [hx])]
  | cons y ys ih =>
      have hy : p y = true := ha y (List.mem_cons_self y ys)
      rw [List.cons_append, List.takeWhile_cons_of_pos hy,
          ih (fun z hz => ha z (List.mem_cons_of_mem y hz))]

/-- dropWhile over a list that starts with a satisfying run followed by a
failing element drops exactly that run. -/
theorem dropWhile_all_append {α : Type} (p : α → Bool) (a : List α) (t : List α) (x : α)
    (ha : ∀ y ∈ a, p y = true) (hx : p x = false) :
    (a ++ x :: t).dropWhile p = x :: t := by
  induction a with
  | nil =>
      rw [List.nil_append, List.dropWhile_cons_of_neg (by simp [hx])]
  | cons y ys ih =>
      have hy : p y = true := ha y (List.mem_cons_self y ys)
      rw [List.cons_append, List.dropWhile_cons_of_pos hy,
          ih (fun z hz => ha z (List.mem_cons_of_mem y hz))]

/-- C9 counterexample: the string consisting of an at-sign followed by a
dot contains an at-sign with a dot after it (the claimed acceptance
shape, trimming changes nothing here), yet the validator rejects it, so
acceptance is not equivalent to the claimed shape. -/
theorem C9_counterexample :
    jsTrim "@." = "@." ∧ hasAtThenDot "@." = true ∧ emailRegexAccepts "@." = false := by
  refine ⟨by decide, by decide, by decide⟩

/-- C9 (amended): the email validator accepts a string exactly when it
decomposes as nonempty run, at-sign, nonempty run, dot, nonempty run with
every run character neither whitespace nor an at-sign; a mere at-sign
followed by a later dot is necessary but not sufficient. -/
theorem C9_email_regex_characterization (s : String) :
    emailRegexAccepts s = true ↔ emailShapeSpec s := by
  constructor
  · intro h
    simp only [emailRegexAccepts] at h
    cases hR : s.data.dropWhile emailChar with
    | nil => rw [hR] at h; simp at h
    | cons r domain =>
        rw [hR] at h
        simp only [Bool.and_eq_true, beq_iff_eq, Bool.not_eq_true',
          List.isEmpty_eq_false] at h
        obtain ⟨⟨⟨hr, hA⟩, hall⟩, hdot⟩ := h
        subst hr
        have hsplit : s.data = s.data.takeWhile emailChar ++ '@' :: domain := by
          conv_lhs => rw [← List.takeWhile_append_dropWhile emailChar s.data]
          rw [hR]
        cases domain with
        | nil => simp at hdot
        | cons d0 rest =>
            simp only [List.drop_succ_cons, List.drop_zero] at hdot
            have hmem : '.' ∈ rest.dropLast := List.elem_iff.1 hdot
            obtain ⟨l1, l2, hsp⟩ := List.append_of_mem hmem
            have hrne : rest ≠ [] := by
              intro he
              rw [he] at hsp
              simp at hsp
            have hconcat : rest.dropLast ++ [rest.getLast hrne] = rest :=
              List.dropLast_concat_getLast hrne
            have hrest : rest = l1 ++ '.' :: (l2 ++ [rest.getLast hrne]) := by
              conv_lhs => rw [← hconcat]
              rw [hsp]
              simp
            have hallmem : ∀ x ∈ d0 :: rest, emailChar x = true := List.all_eq_true.1 hall
            refine ⟨s.data.takeWhile emailChar, d0 :: l1, l2 ++ [rest.getLast hrne],
              hA, by simp, by simp, ?_, ?_⟩
            · rw [List.all_eq_true]
              intro x hx
              rcases List.mem_append.1 hx with hx1 | hx2
              · rcases List.mem_append.1 hx1 with hxa | hxb
                · have htw : (s.data.takeWhile emailChar).all emailChar = true :=
                    List.all_takeWhile
                  exact List.all_eq_true.1 htw x hxa
                · apply hallmem x
                  rw [hrest]
                  simp only [List.mem_cons, List.mem_append] at hxb ⊢
                  tauto
              · apply hallmem x
                rw [hrest]
                simp only [List.mem_cons, List.mem_append] at hx2 ⊢
                tauto
            · conv_lhs => rw [hsplit, hrest]
              simp
  · rintro ⟨a, b, c, ha, hb, hc, hall, hdata⟩
    have hallmem := List.all_eq_true.1 hall
    have hAt : emailChar '@' = false := by decide
    have htake : s.data.takeWhile emailChar = a := by
      rw [hdata]
      exact takeWhile_all_append emailChar a _ '@'
        (fun y hy => hallmem y (by simp [hy])) hAt
    have hdrop : s.data.dropWhile emailChar = '@' :: (b ++ '.' :: c) := by
      rw [hdata]
      exact dropWhile_all_append emailChar a _ '@'
        (fun y hy => hallmem y (by simp [hy])) hAt
    have h1 : a.isEmpty = false := List.isEmpty_eq_false.2 ha
    have h2 : (b ++ '.' :: c).all emailChar = true := by
      rw [List.all_eq_true]
      intro x hx
      simp only [List.mem_append, List.mem_cons] at hx
      rcases hx with hx | hx | hx
      · exact hallmem x (by simp [hx])
      · subst hx; decide
      · exact hallmem x (by simp [hx])
    have h3 : ((b ++ '.' :: c).drop 1).dropLast.contains '.' = true := by
      obtain ⟨b0, b2, rfl⟩ : ∃ b0 b2, b = b0 :: b2 := by
        cases b with
        | nil => exact absurd rfl hb
        | cons b0 b2 => exact ⟨b0, b2, rfl⟩
      rw [List.cons_append, List.drop_succ_cons, List.drop_zero,
          List.dropLast_append_cons]
      obtain ⟨c0, c2, rfl⟩ : ∃ c0 c2, c = c0 :: c2 := by
        cases c with
        | nil => exact absurd rfl hc
        | cons c0 c2 => exact ⟨c0, c2, rfl⟩
      rw [List.dropLast_cons₂]
      exact List.elem_iff.2 (by simp)
    simp only [emailRegexAccepts, htake, hdrop]
    simp only [Bool.and_eq_true, beq_iff_eq, Bool.not_eq_true',
      List.isEmpty_eq_false]
    exact ⟨⟨⟨trivial, ha⟩, h2⟩, h3⟩

/-- Witness: not needed formally (the characterization has no proposition
hypotheses), but a concrete acceptance keeps the statement honest. -/
theorem C9_email_regex_characterization_witness :
    emailRegexAccepts "a@b.c" = true ∧ emailShapeSpec "a@b.c" :=
  ⟨by decide, (C9_email_regex_characterization "a@b.c").1 (by decide)⟩

end Wchat
